import Mathlib

/-!
Verification of `src/my_sram_project/sram_config.py`, an OpenRAM
configuration file consisting of fifteen module-level assignments.
The module body is embedded as a list of assignment statements over a
small expression language (integer, rational, string, boolean and
homogeneous-list literals, plus f-string interpolation), and module
loading as sequential evaluation of those statements over a global
environment, exactly as Python executes a module body.
-/

namespace SramConfig

/-- Runtime values occurring in `sram_config.py`: Python ints, floats
(all literals here are exact decimals, modelled as rationals), strings,
booleans and the three homogeneous list literals. -/
inductive Value where
  | int (i : Int)
  | rat (q : ℚ)
  | str (s : String)
  | bool (b : Bool)
  | intList (xs : List Int)
  | ratList (xs : List ℚ)
  | strList (xs : List String)
deriving DecidableEq, Repr

/-- One fragment of an f-string: literal text or an interpolated name. -/
inductive FPart where
  | txt (s : String)
  | var (name : String)
deriving Repr

/-- Right-hand sides occurring in the module: literals and f-strings. -/
inductive Expr where
  | lit (v : Value)
  | fstr (parts : List FPart)
deriving Repr

/-- A module-level assignment `name = expr`. -/
abbrev Stmt := String × Expr

/-- The module's global namespace: an association list, first match wins. -/
abbrev Env := List (String × Value)

/-- Python `str()` on the value kinds that can appear inside the
f-string of this module (ints, strings, booleans); `none` marks kinds
whose Python formatting is outside the model (never reached here). -/
def Value.pyStr : Value → Option String
  | .int i => some (toString i)
  | .str s => some s
  | .bool b => some (if b then "True" else "False")
  | _ => none

/-- Evaluate the fragments of an f-string left to right, concatenating;
an interpolated name that is unbound raises (Python `NameError`). -/
def evalFParts (env : Env) : List FPart → Except String String
  | [] => .ok ""
  | .txt s :: rest => do
      let r ← evalFParts env rest
      .ok (s ++ r)
  | .var n :: rest =>
      match env.lookup n with
      | none => .error ("NameError: " ++ n)
      | some v =>
        match v.pyStr with
        | none => .error ("unmodelled format: " ++ n)
        | some s => do
            let r ← evalFParts env rest
            .ok (s ++ r)

/-- Evaluate a right-hand side in the current global environment. -/
def evalExpr (env : Env) : Expr → Except String Value
  | .lit v => .ok v
  | .fstr parts => do
      let s ← evalFParts env parts
      .ok (.str s)

/-- Bind `n` to `v` in the global namespace: replace an existing
binding in place, otherwise append (Python dict assignment). -/
def setVar (env : Env) (n : String) (v : Value) : Env :=
  match env with
  | [] => [(n, v)]
  | (m, w) :: rest => if m = n then (n, v) :: rest else (m, w) :: setVar rest n v

/-- Execute one assignment statement. -/
def evalStmt (env : Env) (s : Stmt) : Except String Env := do
  let v ← evalExpr env s.2
  .ok (setVar env s.1 v)

/-- Execute a sequence of statements from a given starting namespace. -/
def evalModuleFrom (env : Env) : List Stmt → Except String Env
  | [] => .ok env
  | s :: rest => do
      let env2 ← evalStmt env s
      evalModuleFrom env2 rest

/-- Load a module body into a fresh global namespace. -/
def evalModule (stmts : List Stmt) : Except String Env :=
  evalModuleFrom [] stmts

/-- The f-string assigned to `output_name` in `sram_config.py`:
`f"sram_{word_size}x{num_words}_{num_banks}bank"`. -/
def output_name_expr : Expr :=
  .fstr [.txt "sram_", .var "word_size", .txt "x", .var "num_words",
         .txt "_", .var "num_banks", .txt "bank"]

/-- The module body of `sram_config.py`: its fifteen assignments, in
source order, with the source's literals. -/
def sram_config_stmts : List Stmt :=
  [ ("word_size", .lit (.int 32)),
    ("words_per_row", .lit (.int 4)),
    ("num_words", .lit (.int 1024)),
    ("num_banks", .lit (.int 1)),
    ("num_rw_ports", .lit (.int 1)),
    ("num_r_ports", .lit (.int 0)),
    ("num_w_ports", .lit (.int 0)),
    ("tech_name", .lit (.str "freepdk45")),
    ("process_corners", .lit (.strList ["TT"])),
    ("supply_voltages", .lit (.ratList [1.8])),
    ("temperatures", .lit (.intList [25])),
    ("output_path", .lit (.str "output")),
    ("output_name", output_name_expr),
    ("analytical_delay", .lit (.bool true)),
    ("nominal_corner_only", .lit (.bool true)) ]

/-- The global namespace after the module body has run (empty on the
error path, which the theorems show is not taken). -/
def loadedEnv : Env :=
  match evalModule sram_config_stmts with
  | .ok e => e
  | .error _ => []

/-- The names the module binds, in source order. -/
def configFieldNames : List String := sram_config_stmts.map Prod.fst

/-- Integer-valued field lookup. -/
def getInt (env : Env) (n : String) : Option Int :=
  match env.lookup n with
  | some (.int i) => some i
  | _ => none

/-- Total number of ports declared by a configuration. -/
def totalPorts (env : Env) : Option Int :=
  match getInt env "num_rw_ports", getInt env "num_r_ports",
        getInt env "num_w_ports" with
  | some a, some b, some c => some (a + b + c)
  | _, _, _ => none

/-- Whether a right-hand side is a plain literal (no derivation). -/
def Expr.isLit : Expr → Bool
  | .lit _ => true
  | .fstr _ => false

/-- Names an f-string fragment reads. -/
def FPart.varNames : FPart → List String
  | .txt _ => []
  | .var n => [n]

/-- Names a right-hand side reads. -/
def Expr.vars : Expr → List String
  | .lit _ => []
  | .fstr ps => (ps.map FPart.varNames).flatten

/-- Every string-typed value a configuration holds (string fields and
elements of string lists). -/
def stringValues (env : Env) : List String :=
  env.foldr
    (fun p acc =>
      match p.2 with
      | .str s => s :: acc
      | .strList xs => xs ++ acc
      | _ => acc) []

/-- A path string is absolute when it begins with a slash. -/
def isAbsolutePath (s : String) : Bool :=
  match s.data with
  | [] => false
  | c :: _ => c = '/'

/-- C1: for any integer values bound to word_size, num_words and num_banks,
the module's output_name f-string evaluates to exactly the concatenation
"sram_" + word_size + "x" + num_words + "_" + num_banks + "bank", and in
the loaded configuration output_name is "sram_32x1024_1bank". -/
theorem output_name_is_concatenation :
    (∀ w n b : Int,
      evalExpr [("word_size", .int w), ("num_words", .int n), ("num_banks", .int b)]
          output_name_expr
        = .ok (.str ("sram_" ++ toString w ++ "x" ++ toString n ++ "_"
            ++ toString b ++ "bank"))) ∧
    loadedEnv.lookup "output_name" = some (.str "sram_32x1024_1bank") := by
  refine ⟨fun w n b => ?_, rfl⟩
  simp [evalExpr, output_name_expr, evalFParts, Value.pyStr, List.lookup,
        Bind.bind, Except.bind, String.append_empty, String.append_assoc]

/-- C1 witness: the interpolation equation instantiated at the module's
own values 32, 1024, 1. -/
theorem output_name_is_concatenation_witness :
    evalExpr [("word_size", .int 32), ("num_words", .int 1024), ("num_banks", .int 1)]
        output_name_expr
      = .ok (.str ("sram_" ++ toString (32 : Int) ++ "x" ++ toString (1024 : Int)
          ++ "_" ++ toString (1 : Int) ++ "bank")) :=
  output_name_is_concatenation.1 32 1024 1

/-- C2: after loading, every declared field name is bound, and each of the
eleven fields the spec lists equals its declared default literal. -/
theorem defaults_after_load :
    configFieldNames.all (fun n => (loadedEnv.lookup n).isSome) = true ∧
    loadedEnv.lookup "word_size" = some (.int 32) ∧
    loadedEnv.lookup "words_per_row" = some (.int 4) ∧
    loadedEnv.lookup "num_words" = some (.int 1024) ∧
    loadedEnv.lookup "num_banks" = some (.int 1) ∧
    loadedEnv.lookup "num_rw_ports" = some (.int 1) ∧
    loadedEnv.lookup "tech_name" = some (.str "freepdk45") ∧
    loadedEnv.lookup "process_corners" = some (.strList ["TT"]) ∧
    loadedEnv.lookup "supply_voltages" = some (.ratList [1.8]) ∧
    loadedEnv.lookup "temperatures" = some (.intList [25]) ∧
    loadedEnv.lookup "analytical_delay" = some (.bool true) ∧
    loadedEnv.lookup "nominal_corner_only" = some (.bool true) :=
  ⟨rfl, rfl, rfl, rfl, rfl, rfl, rfl, rfl, rfl, rfl, rfl, rfl⟩

/-- C3 counterexample: the configuration surface does not expose sixteen
named fields; the module binds a different number of names. -/
theorem config_fields_not_sixteen : ¬ (configFieldNames.length = 16) := by
  decide

/-- C3 (amended): the configuration surface exposes exactly fifteen
distinct named fields. -/
theorem config_fields_fifteen :
    configFieldNames.length = 15 ∧ configFieldNames.Nodup := by
  exact ⟨rfl, by decide⟩

/-- C4: the declared values satisfy the documented constraints: word_size,
words_per_row and num_words are positive integers, num_banks is 1 or 2,
and the three port counts are non-negative integers. -/
theorem declared_values_satisfy_constraints :
    (∃ i, getInt loadedEnv "word_size" = some i ∧ 0 < i) ∧
    (∃ i, getInt loadedEnv "words_per_row" = some i ∧ 0 < i) ∧
    (∃ i, getInt loadedEnv "num_words" = some i ∧ 0 < i) ∧
    (∃ i, getInt loadedEnv "num_banks" = some i ∧ (i = 1 ∨ i = 2)) ∧
    (∃ i, getInt loadedEnv "num_rw_ports" = some i ∧ 0 ≤ i) ∧
    (∃ i, getInt loadedEnv "num_r_ports" = some i ∧ 0 ≤ i) ∧
    (∃ i, getInt loadedEnv "num_w_ports" = some i ∧ 0 ≤ i) :=
  ⟨⟨32, rfl, by norm_num⟩, ⟨4, rfl, by norm_num⟩, ⟨1024, rfl, by norm_num⟩,
   ⟨1, rfl, Or.inl rfl⟩, ⟨1, rfl, by norm_num⟩, ⟨0, rfl, le_refl 0⟩,
   ⟨0, rfl, le_refl 0⟩⟩

/-- C5: loading the module takes no error path (evaluation returns ok);
every statement except output_name assigns a plain literal, and the
output_name statement derives its value from exactly word_size, num_words
and num_banks. -/
theorem load_has_no_error_path :
    evalModule sram_config_stmts = .ok loadedEnv ∧
    sram_config_stmts.all (fun p => p.1 == "output_name" || p.2.isLit) = true ∧
    sram_config_stmts.lookup "output_name" = some output_name_expr ∧
    output_name_expr.vars = ["word_size", "num_words", "num_banks"] :=
  ⟨rfl, rfl, rfl, rfl⟩

/-- C6: loading is idempotent: a fresh load yields loadedEnv, and running
the module body a second time over the namespace the first run produced
yields the identical namespace, every field unchanged. -/
theorem load_twice_identical :
    evalModule sram_config_stmts = .ok loadedEnv ∧
    evalModuleFrom loadedEnv sram_config_stmts = .ok loadedEnv :=
  ⟨rfl, rfl⟩

/-- C7: every field name is assigned exactly once in the module body's
single pass, so no statement reassigns or mutates a field after its
initial assignment. -/
theorem fields_assigned_once :
    configFieldNames.all (fun n => configFieldNames.count n == 1) = true := by
  decide

/-- C8: the declared configuration has num_r_ports = 0 and
num_w_ports = 0, and the total port count is exactly 1, hence nonzero. -/
theorem total_ports_is_one :
    getInt loadedEnv "num_r_ports" = some 0 ∧
    getInt loadedEnv "num_w_ports" = some 0 ∧
    totalPorts loadedEnv = some 1 ∧
    totalPorts loadedEnv ≠ some 0 :=
  ⟨rfl, rfl, rfl, by decide⟩

/-- C9: in the declared configuration words_per_row exactly divides
num_words: 1024 mod 4 = 0, giving 256 physical rows. -/
theorem words_per_row_divides_num_words :
    ∃ n w, getInt loadedEnv "num_words" = some n ∧
      getInt loadedEnv "words_per_row" = some w ∧
      n % w = 0 ∧ n / w = 256 :=
  ⟨1024, 4, rfl, rfl, by decide, by decide⟩

/-- C10: output_path is bound to the literal relative string "output" by
a plain literal assignment that reads no other field, and no string value
in the loaded configuration is an absolute path. -/
theorem output_path_is_relative_literal :
    loadedEnv.lookup "output_path" = some (.str "output") ∧
    sram_config_stmts.lookup "output_path" = some (.lit (.str "output")) ∧
    (Expr.lit (Value.str "output")).vars = [] ∧
    (stringValues loadedEnv).all (fun s => !(isAbsolutePath s)) = true :=
  ⟨rfl, rfl, rfl, by decide⟩

end SramConfig
